import Mathlib

/-!
Shallow embedding of the server-side core of the `next-tut` invoice
application: the validated invoice mutation pipeline
(`createInvoice` / `updateInvoice` / `deleteInvoice` from the server
actions module), the credential-verification flow (`getUser` /
`authorize` from `auth.ts`), and the route-guard path matcher from
`middleware.ts`.

Modelling conventions:
* JavaScript strings are Lean `String`s (lists of characters where
  character-level reasoning is needed).
* JavaScript numbers produced by `Number(...)` coercion are modelled
  exactly as decimal rationals `Dec` (an integer mantissa and a power
  of ten), with `none : Option Dec` playing the role of `NaN`.  The
  rational value of such a number is `Dec.toRat`.  The modelled
  fragment of `Number` covers whitespace trimming, an optional sign,
  decimal literals and decimal exponents; exotic forms (hexadecimal,
  `Infinity`) are outside the fragment and none of the inputs
  considered here use them.
* The asynchronous store (`sql` tagged templates) is modelled by an
  explicit success flag `sqlOk : Bool` (the statement either succeeds
  or throws) together with a trace of attempted calls, and a separate
  interpreter `runTrace` that applies the successful statements to a
  store of invoice rows.
* `redirect` in Next.js works by throwing a control-flow signal; the
  model records it as a distinguished `Outcome.redirected` which, like
  the thrown error of `deleteInvoice`, terminates the action without a
  normal return value.
* `new Date().toISOString().split('T')[0]` (the current date) is an
  explicit parameter `today`.
-/

namespace NextTut

/-! ## Exact decimal numbers -/

/-- An exact decimal number `m / 10 ^ k`.  This represents the
JavaScript numbers that occur in the pipeline (all of which are exact
decimals) without rounding. -/
structure Dec where
  m : ℤ
  k : ℕ
deriving DecidableEq, Repr

/-- Rational value of a decimal number. -/
def Dec.toRat (d : Dec) : ℚ := (d.m : ℚ) / (10 : ℚ) ^ d.k

/-- `d * n` for an integer `n` (the `amount * 100` scaling at the call
site of the actions). -/
def Dec.mulInt (d : Dec) (n : ℤ) : Dec := ⟨d.m * n, d.k⟩

theorem Dec.toRat_mulInt (d : Dec) (n : ℤ) : (d.mulInt n).toRat = d.toRat * n := by
  simp only [Dec.toRat, Dec.mulInt]
  push_cast
  ring

theorem Dec.toRat_pos_iff (d : Dec) : 0 < d.toRat ↔ 0 < d.m := by
  have h10 : (0 : ℚ) < (10 : ℚ) ^ d.k := by positivity
  rw [Dec.toRat, lt_div_iff₀ h10, zero_mul, Int.cast_pos]

/-! ## JavaScript `Number(...)` coercion on strings (the zod `coerce` step) -/

/-- Numeric value of a list of ASCII digits (most significant first). -/
def digitsToNat (ds : List Char) : Nat :=
  ds.foldl (fun a c => a * 10 + (c.toNat - 48)) 0

/-- Parse an unsigned decimal literal (`digits`, `digits.digits`,
`digits.`, `.digits`) from the front of a character list, returning the
mantissa, the number of fraction digits and the unconsumed remainder;
`none` when no digits are present. -/
def parseUnsignedDec (cs : List Char) : Option (ℕ × ℕ × List Char) :=
  let ip := cs.takeWhile Char.isDigit
  let r1 := cs.dropWhile Char.isDigit
  match r1 with
  | '.' :: r2 =>
    let fp := r2.takeWhile Char.isDigit
    let r3 := r2.dropWhile Char.isDigit
    if ip.isEmpty && fp.isEmpty then none
    else some (digitsToNat ip * 10 ^ fp.length + digitsToNat fp, fp.length, r3)
  | _ => if ip.isEmpty then none else some (digitsToNat ip, 0, r1)

/-- Parse an optional decimal exponent (`e`/`E`, optional sign, digits).
Returns the exponent and the remainder; `none` models a malformed
exponent (which makes the whole literal `NaN` in JavaScript). -/
def parseExp (cs : List Char) : Option (ℤ × List Char) :=
  match cs with
  | c :: r1 =>
    if c = 'e' || c = 'E' then
      let (sgn, r2) : ℤ × List Char :=
        match r1 with
        | '+' :: t => (1, t)
        | '-' :: t => (-1, t)
        | t => (1, t)
      let ds := r2.takeWhile Char.isDigit
      let r3 := r2.dropWhile Char.isDigit
      if ds.isEmpty then none else some (sgn * (digitsToNat ds : ℤ), r3)
    else some (0, cs)
  | [] => some (0, [])

/-- Assemble `sgn * mant * 10 ^ (e - fracLen)` as a decimal number. -/
def Dec.ofParts (sgn : ℤ) (mant : ℕ) (fracLen : ℕ) (e : ℤ) : Dec :=
  let p : ℤ := e - fracLen
  if 0 ≤ p then ⟨sgn * mant * 10 ^ p.toNat, 0⟩ else ⟨sgn * mant, (-p).toNat⟩

/-- Strip leading and trailing whitespace, as `Number` does before
parsing. -/
def jsTrim (s : String) : List Char :=
  ((s.toList.dropWhile Char.isWhitespace).reverse.dropWhile Char.isWhitespace).reverse

/-- JavaScript `Number(s)` on a string, on the modelled fragment:
`some d` is the numeric value, `none` is `NaN`.  The whitespace-only
string coerces to `0`. -/
def jsNumber (s : String) : Option Dec :=
  match jsTrim s with
  | [] => some ⟨0, 0⟩
  | cs =>
    let (sgn, r0) : ℤ × List Char :=
      match cs with
      | '+' :: t => (1, t)
      | '-' :: t => (-1, t)
      | t => (1, t)
    match parseUnsignedDec r0 with
    | none => none
    | some (mant, fracLen, r1) =>
      match parseExp r1 with
      | none => none
      | some (e, r2) => if r2.isEmpty then some (Dec.ofParts sgn mant fracLen e) else none

example : jsNumber "125.50" = some ⟨12550, 2⟩ := by decide
example : jsNumber "" = some ⟨0, 0⟩ := by decide
example : jsNumber "   " = some ⟨0, 0⟩ := by decide
example : jsNumber "abc" = none := by decide
example : jsNumber " 12 " = some ⟨12, 0⟩ := by decide
example : jsNumber "-3.5e2" = some ⟨-350, 0⟩ := by decide
example : jsNumber "1e" = none := by decide
example : jsNumber "12px" = none := by decide
example : jsNumber "." = none := by decide
example : jsNumber "0" = some ⟨0, 0⟩ := by decide

/-! ## The invoice form schema (`FormSchema` with `id` and `date` omitted) -/

/-- Invoice status, the zod enum `['pending', 'paid']`. -/
inductive Status
  | pending
  | paid
deriving DecidableEq, Repr

/-- The raw form fields read by `formData.get`; `none` models a missing
field (`formData.get` returning `null`). -/
structure RawForm where
  customerId : Option String
  amount : Option String
  status : Option String
deriving DecidableEq, Repr

/-- Per-field error lists, as produced by
`validatedFields.error.flatten().fieldErrors` (an empty list models an
absent key). -/
structure FieldErrors where
  customerId : List String
  amount : List String
  status : List String
deriving DecidableEq, Repr

/-- The successfully validated form data destructured by the actions. -/
structure ValidatedForm where
  customerId : String
  amount : Dec
  status : Status
deriving DecidableEq, Repr

/-- `z.string({ invalid_type_error: ... })` on `customerId`: a missing
field is an `invalid_type` issue with the configured message; any string
passes. -/
def parseCustomerId : Option String → Except (List String) String
  | none => .error ["Please select a customer."]
  | some s => .ok s

/-- `z.coerce.number().gt(0, ...)` on `amount`: the input is coerced
with `Number` (`null` coerces to `0`); a `NaN` result fails the number
type check with the zod default message, and a non-`NaN` value must be
strictly greater than `0`. -/
def parseAmount (v : Option String) : Except (List String) Dec :=
  let n : Option Dec :=
    match v with
    | none => some ⟨0, 0⟩
    | some s => jsNumber s
  match n with
  | none => .error ["Expected number, received nan"]
  | some d =>
    if 0 < d.m then .ok d else .error ["Please enter an amount greater than $0."]

/-- `z.enum(['pending','paid'], { invalid_type_error: ... })` on
`status`: a missing field is an `invalid_type` issue with the configured
message; a string outside the enum is an `invalid_enum_value` issue with
the zod default message. -/
def parseStatusField : Option String → Except (List String) Status
  | none => .error ["Please select an invoice status"]
  | some s =>
    if s = "pending" then .ok .pending
    else if s = "paid" then .ok .paid
    else .error ["Invalid enum value"]

/-- The error component of a field result (empty when the field parsed). -/
def errsOf {α : Type} : Except (List String) α → List String
  | .error e => e
  | .ok _ => []

/-- `CreateInvoice.safeParse` (and identically `UpdateInvoice.safeParse`):
all three fields are checked and their errors collected together; the
parse succeeds only when every field does. -/
def safeParseForm (f : RawForm) : Except FieldErrors ValidatedForm :=
  match parseCustomerId f.customerId, parseAmount f.amount, parseStatusField f.status with
  | .ok c, .ok a, .ok s => .ok ⟨c, a, s⟩
  | rc, ra, rs => .error ⟨errsOf rc, errsOf ra, errsOf rs⟩

/-! ## The mutation actions as effect traces -/

/-- The three SQL statements issued by the actions. -/
inductive SqlStmt
  | insertInvoice (customerId : String) (amount : Dec) (status : Status) (date : String)
  | updateInvoiceRow (id : String) (customerId : String) (amount : Dec) (status : Status)
  | deleteInvoiceRow (id : String)
deriving DecidableEq, Repr

/-- The observable calls an action makes, in order. -/
inductive Effect
  | sqlCall (stmt : SqlStmt)
  | revalidateCall (path : String)
  | redirectCall (path : String)
deriving DecidableEq, Repr

/-- The `State` shape returned to the form on validation or database
failure. -/
structure State where
  errors : Option FieldErrors
  message : Option String
deriving DecidableEq, Repr

/-- How an action invocation terminates: a normal return of a `State`,
the thrown redirect signal, or an uncaught thrown error. -/
inductive Outcome
  | returned (s : State)
  | redirected (path : String)
  | fatalError (msg : String)
deriving DecidableEq, Repr

/-- The invoices listing path used for revalidation and redirect. -/
def invoicesPath : String := "/dashboard/invoices"

/-- `createInvoice(prevState, formData)`: safe-parse the form, return
the field errors early on failure; otherwise scale the amount to cents
(`amount * 100` at the call site), attempt the insert inside the
try/catch (a store failure is caught and returned as a database-error
message), then revalidate and redirect outside the try/catch. -/
def createInvoice (sqlOk : Bool) (today : String) (f : RawForm) : List Effect × Outcome :=
  match safeParseForm f with
  | .error errs =>
    ([], .returned ⟨some errs, some "Missing Fields. Failed to Create Invoice."⟩)
  | .ok v =>
    let amountInCents := v.amount.mulInt 100
    let stmt := SqlStmt.insertInvoice v.customerId amountInCents v.status today
    if sqlOk then
      ([.sqlCall stmt, .revalidateCall invoicesPath, .redirectCall invoicesPath],
        .redirected invoicesPath)
    else
      ([.sqlCall stmt], .returned ⟨none, some "Database Error: Failed to create invoice."⟩)

/-- `updateInvoice(id, prevState, formData)`: same pipeline as
`createInvoice` with an update statement and no date. -/
def updateInvoice (sqlOk : Bool) (id : String) (f : RawForm) : List Effect × Outcome :=
  match safeParseForm f with
  | .error errs =>
    ([], .returned ⟨some errs, some "Missing Fields. Failed to Update Invoice."⟩)
  | .ok v =>
    let amountInCents := v.amount.mulInt 100
    let stmt := SqlStmt.updateInvoiceRow id v.customerId amountInCents v.status
    if sqlOk then
      ([.sqlCall stmt, .revalidateCall invoicesPath, .redirectCall invoicesPath],
        .redirected invoicesPath)
    else
      ([.sqlCall stmt], .returned ⟨none, some "Database Error: Failed to Update Invoice."⟩)

/-- `deleteInvoice(id)`: the first statement of the function body is
`throw new Error('failed to delete invoice')`, so the try/catch, the
delete statement and the revalidation below it are unreachable. -/
def deleteInvoice (_sqlOk : Bool) (_id : String) : List Effect × Outcome :=
  ([], .fatalError "failed to delete invoice")

/-! ## The invoice store and the interpretation of traces -/

/-- A persisted invoice row (`id` is assigned by the database on
insert). -/
structure InvoiceRow where
  id : String
  customer_id : String
  amount : Dec
  status : Status
  date : String
deriving DecidableEq, Repr

/-- The invoices table. -/
abbrev Store := List InvoiceRow

/-- Effect of one successful SQL statement on the table; `assignId` is
the id the database assigns to an inserted row. -/
def applyStmt (assignId : String) (store : Store) : SqlStmt → Store
  | .insertInvoice c a s d => store ++ [⟨assignId, c, a, s, d⟩]
  | .updateInvoiceRow i c a s =>
    store.map fun r => if r.id = i then { r with customer_id := c, amount := a, status := s } else r
  | .deleteInvoiceRow i => store.filter fun r => r.id ≠ i

/-- Interpret a trace over the store: SQL calls change the store exactly
when the store is up (`sqlOk`); revalidation and redirect do not touch
it. -/
def runTrace (assignId : String) (sqlOk : Bool) (store : Store) : List Effect → Store
  | [] => store
  | .sqlCall st :: rest =>
    runTrace assignId sqlOk (if sqlOk then applyStmt assignId store st else store) rest
  | .revalidateCall _ :: rest => runTrace assignId sqlOk store rest
  | .redirectCall _ :: rest => runTrace assignId sqlOk store rest

/-! ## Credential verification (`auth.ts`) -/

/-- A row of the `users` table (the shape selected by `getUser`;
`password` is the stored bcrypt hash). -/
structure User where
  id : String
  name : String
  email : String
  password : String
deriving DecidableEq, Repr

/-- Characters admitted anywhere in the local part of an email by the
zod email regular expression (letters, digits, `_`, apostrophe, `+`,
`-`, `.`). -/
def isEmailChar (c : Char) : Bool :=
  c.isAlpha || c.isDigit || c = '_' || c = Char.ofNat 39 || c = '+' || c = '-' || c = '.'

/-- Characters admitted as the final character of the local part
(the regex excludes `.` and the apostrophe there). -/
def isEmailEndChar (c : Char) : Bool :=
  c.isAlpha || c.isDigit || c = '_' || c = '+' || c = '-'

/-- No two consecutive dots (the regex lookahead `(?!.*\.\.)`). -/
def noDoubleDot : List Char → Bool
  | '.' :: '.' :: _ => false
  | _ :: rest => noDoubleDot rest
  | [] => true

/-- The local part of the address: nonempty, made of admitted
characters, not starting with a dot, not containing `..`, ending in a
restricted character. -/
def localOk (l : List Char) : Bool :=
  l.all isEmailChar && l.headD '.' ≠ '.' && isEmailEndChar (l.getLastD '.') && noDoubleDot l

/-- Split a character list on a separator character (like
`String.splitOn` for a single-character separator). -/
def splitOnSep (sep : Char) : List Char → List (List Char)
  | [] => [[]]
  | c :: rest =>
    if c = sep then [] :: splitOnSep sep rest
    else
      match splitOnSep sep rest with
      | [] => [[c]]
      | p :: ps => (c :: p) :: ps

/-- A domain label `[A-Z0-9][A-Z0-9-]*` (case-insensitive). -/
def labelOk (l : List Char) : Bool :=
  match l with
  | [] => false
  | c :: rest => (c.isAlpha || c.isDigit) && rest.all fun x => x.isAlpha || x.isDigit || x = '-'

/-- The final top-level label `[A-Z]{2,}` (case-insensitive). -/
def tldOk (l : List Char) : Bool :=
  decide (2 ≤ l.length) && l.all Char.isAlpha

/-- The domain part `([A-Z0-9][A-Z0-9-]*\.)+[A-Z]{2,}`: at least one
ordinary label, each dot-terminated, then a top-level label. -/
def domainOk (d : List Char) : Bool :=
  match (splitOnSep '.' d).reverse with
  | [] => false
  | tld :: labelsRev => tldOk tld && !labelsRev.isEmpty && labelsRev.all labelOk

/-- `z.string().email()`: the zod email regular expression
`^(?!\.)(?!.*\.\.)([A-Z0-9_'+\-\.]*)[A-Z0-9_+\-]@([A-Z0-9][A-Z0-9\-]*\.)+[A-Z]{2,}$`
(case-insensitive), expressed structurally: exactly one `@`, a valid
local part before it and a valid domain after it. -/
def isEmail (s : String) : Bool :=
  match splitOnSep '@' s.toList with
  | [lpart, dpart] => localOk lpart && domainOk dpart
  | _ => false

example : isEmail "user@nextmail.com" = true := by decide
example : isEmail "user@nextmail" = false := by decide
example : isEmail "plainaddress" = false := by decide
example : isEmail ".user@nextmail.com" = false := by decide
example : isEmail "us..er@nextmail.com" = false := by decide
example : isEmail "a@b.co" = true := by decide
example : isEmail "" = false := by decide

/-- The submitted credentials record. -/
structure Credentials where
  email : String
  password : String
deriving DecidableEq, Repr

/-- `z.object({ email: z.string().email(), password: z.string().min(6) })`:
the safe-parse of the submitted credentials succeeds exactly when the
email is well-formed and the password has at least 6 characters. -/
def validCreds (c : Credentials) : Bool :=
  isEmail c.email && decide (6 ≤ c.password.length)

/-- The observable store access made by `authorize`. -/
inductive AuthEvent
  | dbLookup (email : String)
deriving DecidableEq, Repr

/-- `getUser(email)`: `SELECT * FROM users WHERE email=...` and return
`user.rows[0]`.  A store failure is caught, logged, and re-thrown as
`Error('Failed to fetch user.')`; the model's `dbOk` flag says whether
the query succeeds. -/
def getUser (dbOk : Bool) (db : List User) (email : String) :
    Except String (Option User) :=
  if dbOk then .ok ((db.filter fun u => u.email == email).head?)
  else .error "Failed to fetch user."

/-- The `authorize` callback of the Credentials provider: safe-parse the
credentials; on success look the user up by email (a thrown store error
propagates), return `null` for an unknown user, compare the password
with the stored hash via `bcrypt.compare` (modelled by the comparison
oracle `compare`), and return the user exactly on a match; any fallen-
through path returns `null`.  The first component lists the store
lookups performed. -/
def authorize (compare : String → String → Bool) (dbOk : Bool) (db : List User)
    (c : Credentials) : List AuthEvent × Except String (Option User) :=
  if validCreds c then
    match getUser dbOk db c.email with
    | .error e => ([.dbLookup c.email], .error e)
    | .ok none => ([.dbLookup c.email], .ok none)
    | .ok (some user) =>
      if compare c.password user.password then ([.dbLookup c.email], .ok (some user))
      else ([.dbLookup c.email], .ok none)
  else ([], .ok none)

/-! ## The route-guard matcher (`middleware.ts`) -/

/-- `leadsWith pat s`: `pat` is a prefix of `s` (a literal matching at
the current regex position). -/
def leadsWith : List Char → List Char → Bool
  | [], _ => true
  | _ :: _, [] => false
  | a :: pats, b :: rest => a = b && leadsWith pats rest

/-- `trailsWith pat s`: `s` ends with `pat` (the regex `.*pat$` matching
from the current position). -/
def trailsWith (pat s : List Char) : Bool :=
  leadsWith pat.reverse s.reverse

/-- The config matcher `'/((?!api|_next/static|_next/image|.*\.png$).*)'`:
the path is a `/` followed by a remainder at which the negative
lookahead must fail — the remainder must not start with `api`,
`_next/static` or `_next/image` and must not end with `.png`; the
trailing `.*` then consumes the remainder. -/
def matcherAccepts (path : String) : Bool :=
  match path.toList with
  | '/' :: rest =>
    !(leadsWith "api".toList rest || leadsWith "_next/static".toList rest ||
      leadsWith "_next/image".toList rest || trailsWith ".png".toList rest)
  | _ => false

/-- Next.js invokes the middleware — and with it the NextAuth session
check — exactly for the paths the config matcher accepts; a path the
matcher excludes bypasses the guard and the session is never read. -/
def sessionConsulted (path : String) : Bool := matcherAccepts path

/-- Decidable equality of `Except` results (not provided by the core
library), so that concrete runs of the model can be checked by
`decide`. -/
instance {ε α : Type} [DecidableEq ε] [DecidableEq α] : DecidableEq (Except ε α)
  | .error a, .error b =>
    if h : a = b then .isTrue (by rw [h]) else .isFalse (by simp [h])
  | .error _, .ok _ => .isFalse (by simp)
  | .ok _, .error _ => .isFalse (by simp)
  | .ok a, .ok b =>
    if h : a = b then .isTrue (by rw [h]) else .isFalse (by simp [h])

example : matcherAccepts "/dashboard/invoices" = true := by decide
example : matcherAccepts "/api/foo" = false := by decide
example : matcherAccepts "/apiary" = false := by decide
example : matcherAccepts "/_next/static/chunk.js" = false := by decide
example : matcherAccepts "/images/logo.png" = false := by decide
example : matcherAccepts "/" = true := by decide
example : matcherAccepts "/login" = true := by decide

example : safeParseForm ⟨some "c1", some "125.50", some "pending"⟩ =
    .ok ⟨"c1", ⟨12550, 2⟩, .pending⟩ := by decide

/-! ## Shared lemmas -/

/-- If the amount field fails, the whole safe-parse fails with that
field error collected (the other fields contribute their own error
lists). -/
theorem safeParseForm_amount_error (f : RawForm) (msgs : List String)
    (h : parseAmount f.amount = .error msgs) :
    safeParseForm f =
      .error ⟨errsOf (parseCustomerId f.customerId), msgs,
        errsOf (parseStatusField f.status)⟩ := by
  unfold safeParseForm
  cases hc : parseCustomerId f.customerId <;>
    cases hs : parseStatusField f.status <;>
      simp [h, hc, hs, errsOf]

/-! ## Claims -/

/-- C1: for every invoice id, `deleteInvoice` raises the fatal error
`failed to delete invoice` before the delete statement: its trace makes
no SQL call, no cache invalidation and no redirect, and interpreting it
leaves the invoice store unchanged, whether or not the store is up. -/
theorem deleteInvoice_faults_unconditionally (sqlOk : Bool) (id : String) :
    (deleteInvoice sqlOk id).2 = .fatalError "failed to delete invoice" ∧
    (∀ assignId store, runTrace assignId sqlOk store (deleteInvoice sqlOk id).1 = store) ∧
    (∀ e, e ∈ (deleteInvoice sqlOk id).1 → False) := by
  refine ⟨rfl, fun _ _ => rfl, ?_⟩
  intro e he
  simp [deleteInvoice] at he

/-- C2: on a form that passes validation, a failing store statement
makes `createInvoice` / `updateInvoice` return normally with the
corresponding database-error message (the fault is caught, never
propagated), while a succeeding store statement ends in the thrown
redirect signal — raised outside the try/catch, hence not caught by
it. -/
theorem mutation_db_failure_boundary (today id : String) (f g : RawForm)
    (v w : ValidatedForm) (hf : safeParseForm f = .ok v) (hg : safeParseForm g = .ok w) :
    (createInvoice false today f).2 =
      .returned ⟨none, some "Database Error: Failed to create invoice."⟩ ∧
    (createInvoice true today f).2 = .redirected invoicesPath ∧
    (updateInvoice false id g).2 =
      .returned ⟨none, some "Database Error: Failed to Update Invoice."⟩ ∧
    (updateInvoice true id g).2 = .redirected invoicesPath := by
  simp [createInvoice, updateInvoice, hf, hg]

/-- C2 witness: a concrete validated create and update run, one with
the store down and one with it up. -/
theorem mutation_db_failure_boundary_witness :
    (createInvoice false "2024-01-01" ⟨some "c1", some "125.50", some "pending"⟩).2 =
      .returned ⟨none, some "Database Error: Failed to create invoice."⟩ ∧
    (createInvoice true "2024-01-01" ⟨some "c1", some "125.50", some "pending"⟩).2 =
      .redirected invoicesPath ∧
    (updateInvoice false "inv1" ⟨some "c2", some "99", some "paid"⟩).2 =
      .returned ⟨none, some "Database Error: Failed to Update Invoice."⟩ ∧
    (updateInvoice true "inv1" ⟨some "c2", some "99", some "paid"⟩).2 =
      .redirected invoicesPath :=
  mutation_db_failure_boundary "2024-01-01" "inv1" _ _
    ⟨"c1", ⟨12550, 2⟩, .pending⟩ ⟨"c2", ⟨99, 0⟩, .paid⟩ (by decide) (by decide)

/-- C3: on a form that passes validation, a successful persistence step
is followed by exactly the revalidation of the invoices listing path and
then the redirect to it, in that order; when the persistence step fails,
the trace contains no revalidation and no redirect at all. -/
theorem revalidate_strictly_before_redirect (today id : String) (f g : RawForm)
    (v w : ValidatedForm) (hf : safeParseForm f = .ok v) (hg : safeParseForm g = .ok w) :
    (createInvoice true today f).1 =
      [.sqlCall (.insertInvoice v.customerId (v.amount.mulInt 100) v.status today),
       .revalidateCall invoicesPath, .redirectCall invoicesPath] ∧
    (updateInvoice true id g).1 =
      [.sqlCall (.updateInvoiceRow id w.customerId (w.amount.mulInt 100) w.status),
       .revalidateCall invoicesPath, .redirectCall invoicesPath] ∧
    (∀ p, Effect.revalidateCall p ∉ (createInvoice false today f).1 ∧
      Effect.redirectCall p ∉ (createInvoice false today f).1 ∧
      Effect.revalidateCall p ∉ (updateInvoice false id g).1 ∧
      Effect.redirectCall p ∉ (updateInvoice false id g).1) := by
  refine ⟨by simp [createInvoice, hf], by simp [updateInvoice, hg], fun p => ?_⟩
  simp [createInvoice, updateInvoice, hf, hg]

/-- C3 witness: concrete traces of a successful and a failed create and
update. -/
theorem revalidate_strictly_before_redirect_witness :
    (createInvoice true "2024-01-01" ⟨some "c1", some "125.50", some "pending"⟩).1 =
      [.sqlCall (.insertInvoice "c1" (Dec.mulInt ⟨12550, 2⟩ 100) .pending "2024-01-01"),
       .revalidateCall invoicesPath, .redirectCall invoicesPath] ∧
    Effect.revalidateCall invoicesPath ∉
      (createInvoice false "2024-01-01" ⟨some "c1", some "125.50", some "pending"⟩).1 ∧
    Effect.redirectCall invoicesPath ∉
      (updateInvoice false "inv1" ⟨some "c2", some "99", some "paid"⟩).1 :=
  let h := revalidate_strictly_before_redirect "2024-01-01" "inv1"
    ⟨some "c1", some "125.50", some "pending"⟩ ⟨some "c2", some "99", some "paid"⟩
    ⟨"c1", ⟨12550, 2⟩, .pending⟩ ⟨"c2", ⟨99, 0⟩, .paid⟩ (by decide) (by decide)
  ⟨h.1, (h.2.2 invoicesPath).1, (h.2.2 invoicesPath).2.2.2⟩

/-- C4 counterexample: the non-numeric amount input `"abc"` is not
coerced to `0` — `Number` coercion yields `NaN`, so the field error on
amount is the zod number-type error, not the greater-than-0 message the
claim predicts. -/
theorem amount_nonnumeric_not_coerced_to_zero :
    jsNumber "abc" = none ∧
    parseAmount (some "abc") = .error ["Expected number, received nan"] ∧
    parseAmount (some "abc") ≠ .error ["Please enter an amount greater than $0."] := by
  decide

/-- C4 (amended): an empty (after trimming) amount input coerces to `0`
and fails the greater-than-0 constraint, while a non-numeric input
coerces to `NaN` and fails the number-type check; in both cases
validation fails with a nonempty field error on amount, and the
pipeline returns early — its trace is empty, so persistence is never
reached. -/
theorem amount_empty_or_nonnumeric_rejected (sqlOk : Bool) (today : String)
    (f : RawForm) (s : String) (hs : f.amount = some s)
    (h : jsTrim s = [] ∨ jsNumber s = none) :
    (jsTrim s = [] → jsNumber s = some ⟨0, 0⟩ ∧
      parseAmount f.amount = .error ["Please enter an amount greater than $0."]) ∧
    (jsNumber s = none →
      parseAmount f.amount = .error ["Expected number, received nan"]) ∧
    (∃ errs : FieldErrors, errs.amount ≠ [] ∧
      (createInvoice sqlOk today f).2 =
        .returned ⟨some errs, some "Missing Fields. Failed to Create Invoice."⟩) ∧
    (createInvoice sqlOk today f).1 = [] := by
  have hempty : jsTrim s = [] → jsNumber s = some ⟨0, 0⟩ ∧
      parseAmount f.amount = .error ["Please enter an amount greater than $0."] := by
    intro ht
    have hj : jsNumber s = some ⟨0, 0⟩ := by unfold jsNumber; rw [ht]
    exact ⟨hj, by simp [parseAmount, hs, hj]⟩
  have hnan : jsNumber s = none →
      parseAmount f.amount = .error ["Expected number, received nan"] := by
    intro hj
    simp [parseAmount, hs, hj]
  have herr : ∃ msgs : List String, msgs ≠ [] ∧ parseAmount f.amount = .error msgs := by
    rcases h with ht | hj
    · exact ⟨_, by simp, (hempty ht).2⟩
    · exact ⟨_, by simp, hnan hj⟩
  rcases herr with ⟨msgs, hne, hpa⟩
  have hsp := safeParseForm_amount_error f msgs hpa
  refine ⟨hempty, hnan,
    ⟨⟨errsOf (parseCustomerId f.customerId), msgs, errsOf (parseStatusField f.status)⟩,
      hne, ?_⟩, ?_⟩ <;> simp [createInvoice, hsp]

/-- C4 witness: the empty amount input on an otherwise valid create
form is rejected with the greater-than-0 field error and an empty
trace. -/
theorem amount_empty_or_nonnumeric_rejected_witness :
    parseAmount (some "") = .error ["Please enter an amount greater than $0."] ∧
    (createInvoice true "2024-01-01" ⟨some "c1", some "", some "pending"⟩).1 = [] :=
  let h := amount_empty_or_nonnumeric_rejected true "2024-01-01"
    ⟨some "c1", some "", some "pending"⟩ "" rfl (Or.inl (by decide))
  ⟨(h.1 (by decide)).2, h.2.2.2⟩

/-- C5: on well-formed credentials, a failing store lookup makes
`authorize` propagate the thrown internal error `Failed to fetch
user.`, while a successful lookup of an unregistered email returns the
uniform rejection `null`; the two results are distinct, so an
unavailable store is never conflated with an unknown user. -/
theorem authorize_store_error_distinct_from_rejected
    (compare : String → String → Bool) (db : List User) (c : Credentials)
    (hc : validCreds c = true) :
    authorize compare false db c = ([.dbLookup c.email], .error "Failed to fetch user.") ∧
    ((db.filter fun u => u.email == c.email).head? = none →
      authorize compare true db c = ([.dbLookup c.email], .ok none) ∧
      (authorize compare false db c).2 ≠ (authorize compare true db c).2) := by
  have h0 : authorize compare false db c =
      ([.dbLookup c.email], .error "Failed to fetch user.") := by
    simp [authorize, getUser, hc]
  refine ⟨h0, fun hnone => ?_⟩
  have h1 : authorize compare true db c = ([.dbLookup c.email], .ok none) := by
    simp [authorize, getUser, hc, hnone]
  refine ⟨h1, ?_⟩
  rw [h0, h1]
  simp

/-- C5 witness: a concrete well-formed credential pair against a store
that does not contain its email, with the store down and up. -/
theorem authorize_store_error_distinct_from_rejected_witness :
    authorize (fun p h => p == h) false [⟨"u1", "Ann", "other@nextmail.com", "hash1"⟩]
        ⟨"user@nextmail.com", "123456"⟩ =
      ([.dbLookup "user@nextmail.com"], .error "Failed to fetch user.") ∧
    authorize (fun p h => p == h) true [⟨"u1", "Ann", "other@nextmail.com", "hash1"⟩]
        ⟨"user@nextmail.com", "123456"⟩ =
      ([.dbLookup "user@nextmail.com"], .ok none) :=
  let h := authorize_store_error_distinct_from_rejected (fun p h => p == h)
    [⟨"u1", "Ann", "other@nextmail.com", "hash1"⟩]
    ⟨"user@nextmail.com", "123456"⟩ (by decide)
  ⟨h.1, (h.2 (by decide)).1⟩

/-- C6: on well-formed credentials whose email is registered (the
lookup returns the stored user record), `authorize` returns that
record exactly when the bcrypt comparison of the submitted password
against the stored hash succeeds, and the rejection `null` when it
fails. -/
theorem authorize_registered_email_password_check
    (compare : String → String → Bool) (db : List User) (c : Credentials) (u : User)
    (hc : validCreds c = true)
    (hu : (db.filter fun x => x.email == c.email).head? = some u) :
    (compare c.password u.password = true →
      authorize compare true db c = ([.dbLookup c.email], .ok (some u))) ∧
    (compare c.password u.password = false →
      authorize compare true db c = ([.dbLookup c.email], .ok none)) := by
  constructor <;> intro hcmp <;> simp [authorize, getUser, hc, hu, hcmp]

/-- C6 witness: a registered user, once with the correct password and
once with a wrong one, under a concrete comparison oracle. -/
theorem authorize_registered_email_password_check_witness :
    authorize (fun p h => ("hash-" ++ p) == h) true
        [⟨"u1", "Ann", "user@nextmail.com", "hash-123456"⟩]
        ⟨"user@nextmail.com", "123456"⟩ =
      ([.dbLookup "user@nextmail.com"],
        .ok (some ⟨"u1", "Ann", "user@nextmail.com", "hash-123456"⟩)) ∧
    authorize (fun p h => ("hash-" ++ p) == h) true
        [⟨"u1", "Ann", "user@nextmail.com", "hash-123456"⟩]
        ⟨"user@nextmail.com", "wrongpw"⟩ =
      ([.dbLookup "user@nextmail.com"], .ok none) :=
  ⟨(authorize_registered_email_password_check (fun p h => ("hash-" ++ p) == h)
      [⟨"u1", "Ann", "user@nextmail.com", "hash-123456"⟩]
      ⟨"user@nextmail.com", "123456"⟩
      ⟨"u1", "Ann", "user@nextmail.com", "hash-123456"⟩
      (by decide) (by decide)).1 (by decide),
   (authorize_registered_email_password_check (fun p h => ("hash-" ++ p) == h)
      [⟨"u1", "Ann", "user@nextmail.com", "hash-123456"⟩]
      ⟨"user@nextmail.com", "wrongpw"⟩
      ⟨"u1", "Ann", "user@nextmail.com", "hash-123456"⟩
      (by decide) (by decide)).2 (by decide)⟩

/-- C7: credentials whose email is not a well-formed address or whose
password is shorter than 6 characters are rejected with `null` before
any store access: the event trace is empty, for every store state and
comparison oracle. -/
theorem authorize_rejects_malformed_without_lookup
    (compare : String → String → Bool) (dbOk : Bool) (db : List User) (c : Credentials)
    (h : isEmail c.email = false ∨ c.password.length < 6) :
    authorize compare dbOk db c = ([], .ok none) := by
  have hv : validCreds c = false := by
    rcases h with h | h
    · simp [validCreds, h]
    · simp [validCreds]
      omega
  simp [authorize, hv]

/-- C7 witness: a malformed email with a long-enough password, and a
well-formed email with a short password, each with the store both up
and down. -/
theorem authorize_rejects_malformed_without_lookup_witness :
    authorize (fun p h => p == h) true [⟨"u1", "Ann", "user@nextmail.com", "hash1"⟩]
        ⟨"not-an-email", "123456"⟩ = ([], .ok none) ∧
    authorize (fun p h => p == h) false [⟨"u1", "Ann", "user@nextmail.com", "hash1"⟩]
        ⟨"user@nextmail.com", "123"⟩ = ([], .ok none) :=
  ⟨authorize_rejects_malformed_without_lookup (fun p h => p == h) true
      [⟨"u1", "Ann", "user@nextmail.com", "hash1"⟩]
      ⟨"not-an-email", "123456"⟩ (Or.inl (by decide)),
   authorize_rejects_malformed_without_lookup (fun p h => p == h) false
      [⟨"u1", "Ann", "user@nextmail.com", "hash1"⟩]
      ⟨"user@nextmail.com", "123"⟩ (Or.inr (by decide))⟩

/-- A literal matches at a position exactly when it is a raw character
prefix of the remainder. -/
theorem leadsWith_iff (pat s : List Char) :
    leadsWith pat s = true ↔ ∃ t, s = pat ++ t := by
  induction pat generalizing s with
  | nil => simp [leadsWith]
  | cons a pats ih =>
    cases s with
    | nil => simp [leadsWith]
    | cons b rest =>
      simp only [leadsWith, Bool.and_eq_true, decide_eq_true_eq, ih, List.cons_append,
        List.cons.injEq]
      constructor
      · rintro ⟨rfl, t, rfl⟩
        exact ⟨t, rfl, rfl⟩
      · rintro ⟨t, rfl, rfl⟩
        exact ⟨rfl, t, rfl⟩

/-- `.*pat$` matches at a position exactly when the remainder ends with
the literal. -/
theorem trailsWith_iff (pat s : List Char) :
    trailsWith pat s = true ↔ ∃ p, s = p ++ pat := by
  unfold trailsWith
  rw [leadsWith_iff]
  constructor
  · rintro ⟨t, ht⟩
    refine ⟨t.reverse, ?_⟩
    have h2 := congrArg List.reverse ht
    simpa using h2
  · rintro ⟨p, rfl⟩
    exact ⟨p.reverse, by simp⟩

/-- C8: a path on the matcher deny-list — one whose remainder after the
leading slash starts with `api`, `_next/static` or `_next/image`, or
one ending in `.png` — is excluded by the config matcher, so the
middleware and with it the session check never run for it. -/
theorem excluded_paths_never_consult_session (rest : List Char)
    (h : (∃ t, rest = "api".toList ++ t) ∨ (∃ t, rest = "_next/static".toList ++ t) ∨
      (∃ t, rest = "_next/image".toList ++ t) ∨ (∃ p, rest = p ++ ".png".toList)) :
    sessionConsulted (String.mk ('/' :: rest)) = false := by
  have key : sessionConsulted (String.mk ('/' :: rest)) =
      !(leadsWith "api".toList rest || leadsWith "_next/static".toList rest ||
        leadsWith "_next/image".toList rest || trailsWith ".png".toList rest) := rfl
  rw [key]
  rcases h with ⟨t, rfl⟩ | ⟨t, rfl⟩ | ⟨t, rfl⟩ | ⟨p, rfl⟩ <;>
    simp [leadsWith_iff, trailsWith_iff]

/-- C8 witness: a path under each deny-list prefix and a `.png` path. -/
theorem excluded_paths_never_consult_session_witness :
    sessionConsulted (String.mk ('/' :: "_next/static/chunk.js".toList)) = false ∧
    sessionConsulted (String.mk ('/' :: "api/invoices".toList)) = false ∧
    sessionConsulted (String.mk ('/' :: "images/logo.png".toList)) = false :=
  ⟨excluded_paths_never_consult_session _ (Or.inr (Or.inl ⟨"/chunk.js".toList, by decide⟩)),
   excluded_paths_never_consult_session _ (Or.inl ⟨"/invoices".toList, by decide⟩),
   excluded_paths_never_consult_session _
     (Or.inr (Or.inr (Or.inr ⟨"images/logo".toList, by decide⟩)))⟩

/-- C9: creating an invoice with a form `customerId = cid`,
`amount = "125.50"`, `status = "pending"` under a working store
validates the amount to the decimal `125.50`, multiplies it by 100 at
the call site, and persists a row whose amount is exactly `12550` minor
units with status pending and the creation-time date; the action then
ends in the redirect. -/
theorem createInvoice_persists_minor_units (cid today assignId : String) (store : Store) :
    jsNumber "125.50" = some ⟨12550, 2⟩ ∧
    ((⟨12550, 2⟩ : Dec).mulInt 100).toRat = 12550 ∧
    (createInvoice true today ⟨some cid, some "125.50", some "pending"⟩).1 =
      [.sqlCall (.insertInvoice cid ((⟨12550, 2⟩ : Dec).mulInt 100) .pending today),
       .revalidateCall invoicesPath, .redirectCall invoicesPath] ∧
    runTrace assignId true store
        (createInvoice true today ⟨some cid, some "125.50", some "pending"⟩).1 =
      store ++ [⟨assignId, cid, (⟨12550, 2⟩ : Dec).mulInt 100, .pending, today⟩] ∧
    (createInvoice true today ⟨some cid, some "125.50", some "pending"⟩).2 =
      .redirected invoicesPath := by
  have hsp : safeParseForm ⟨some cid, some "125.50", some "pending"⟩ =
      .ok ⟨cid, ⟨12550, 2⟩, .pending⟩ := by
    unfold safeParseForm
    have h1 : parseCustomerId (some cid) = .ok cid := rfl
    have h2 : parseAmount (some "125.50") = .ok ⟨12550, 2⟩ := by decide
    have h3 : parseStatusField (some "pending") = .ok .pending := by decide
    rw [h1, h2, h3]
  refine ⟨by decide, ?_, ?_, ?_, ?_⟩
  · norm_num [Dec.toRat, Dec.mulInt]
  · simp [createInvoice, hsp]
  · simp [createInvoice, hsp, runTrace, applyStmt]
    decide
  · simp [createInvoice, hsp]

/-- C10: the matcher tests its deny-list entries as raw string prefixes
of the remainder after the leading slash (and `.png` as a raw suffix
anywhere): a path bypasses the guard exactly when its remainder starts
with `api`, `_next/static` or `_next/image` or ends in `.png`; in
particular the non-API path `/apiary` bypasses it, as does any `.png`
path in any directory, while `/dashboard/invoices` is guarded. -/
theorem matcher_raw_prefix_characterization :
    (∀ rest : List Char,
      sessionConsulted (String.mk ('/' :: rest)) = false ↔
        ((∃ t, rest = "api".toList ++ t) ∨ (∃ t, rest = "_next/static".toList ++ t) ∨
         (∃ t, rest = "_next/image".toList ++ t) ∨ (∃ p, rest = p ++ ".png".toList))) ∧
    sessionConsulted "/apiary" = false ∧
    sessionConsulted "/files/photo.png" = false ∧
    sessionConsulted "/dashboard/invoices" = true := by
  refine ⟨fun rest => ?_, by decide, by decide, by decide⟩
  have key : sessionConsulted (String.mk ('/' :: rest)) =
      !(leadsWith "api".toList rest || leadsWith "_next/static".toList rest ||
        leadsWith "_next/image".toList rest || trailsWith ".png".toList rest) := rfl
  rw [key, Bool.not_eq_false']
  simp only [Bool.or_eq_true, leadsWith_iff, trailsWith_iff]
  tauto

end NextTut
